import Mathlib

/-!
# Verification of the download core of calibre-web-automated-book-downloader

Shallow embedding of the job queue / coordinator / failover / transfer code
from `backend.py`, `book_manager.py` and `downloader.py`, together with
theorems settling the specification claims about it.

Conventions:
* Python machine reals (sizes, percentages) are modelled as `ℚ`; the sizes
  involved are exact in both representations at the inputs considered.
* Network and page-parsing collaborators are modelled as explicit
  environments (lists of responses / outcome parameters) consumed by the
  embedded control flow, which is translated from the source line by line.
-/

namespace CWABD

/-- Job status enum, from `models.QueueStatus` as used throughout
`backend.py` (`QUEUED`, `DOWNLOADING`, `AVAILABLE`, `ERROR`, `CANCELLED`). -/
inductive QueueStatus where
  | queued
  | downloading
  | available
  | error
  | cancelled
deriving DecidableEq, Repr

/-- The statuses that are terminal for a job. -/
def QueueStatus.isTerminal : QueueStatus → Bool
  | .available => true
  | .error => true
  | .cancelled => true
  | _ => false

/-! ## Failover protocol: `book_manager.download_book` (lines 587-607)

For each candidate link the loop body either
* resolves to an empty URL (`_get_download_url` returned `""`): the `if`
  guard fails and the loop silently advances;
* raises (resolution raised, `downloader.download_url` returned no data and
  the code raised `Exception("No data received")`, or the file write
  raised): the `except` clause logs and `continue`s;
* succeeds: the artifact is written and the function returns `True`.
After the loop exhausts every candidate the function returns `False`. -/

/-- Outcome of processing one candidate link inside the loop body of
`download_book`.  `resolvedEmpty` is `_get_download_url` returning `""`;
`resolveRaised` is an exception out of `_get_download_url`;
`transferFailed` is `downloader.download_url` returning `None` (which the
loop body turns into a raised exception) or a raising file write;
`success` is a completed, written transfer. -/
inductive CandidateOutcome where
  | resolvedEmpty
  | resolveRaised
  | transferFailed
  | success
deriving DecidableEq, Repr

/-- `book_manager.download_book` (lines 587-607), as a function of the
per-candidate outcomes the environment produces for its candidate list:
first success wins, every failure advances to the next candidate, and the
return value is `False` exactly when the list is exhausted. -/
def download_book : List CandidateOutcome → Bool
  | [] => false
  | c :: rest => if c = .success then true else download_book rest

/-! ## Worker finalization: `backend._process_single_download` (1092-1120)

The worker body sets DOWNLOADING, runs `_download_book_with_cancellation`,
and finalizes.  The inputs that decide the final status are whether the
worker returned a path, returned `None`, or raised, and whether the job's
cancellation flag was set at the finalization checkpoint. -/

/-- How the call to `_download_book_with_cancellation` inside
`_process_single_download` ended: returned a final path, returned `None`,
or raised an exception. -/
inductive WorkerOutcome where
  | returnedPath
  | returnedNone
  | raised
deriving DecidableEq, Repr

/-- Final status written by `backend._process_single_download`
(lines 1092-1120) given the worker outcome and whether `cancel_flag` was
set when the finalization code inspected it. -/
def process_single_download (outcome : WorkerOutcome) (cancelSet : Bool) :
    QueueStatus :=
  match outcome with
  | .raised => if cancelSet then .cancelled else .error
  | .returnedPath => if cancelSet then .cancelled else .available
  | .returnedNone => if cancelSet then .cancelled else .error

/-! ## Transfer engine connection retries: `downloader.download_url` (93-143)

The connect loop runs `for attempt in range(max_retries)` with
`max_retries = 3`, `base_delay = 30`.  A 429 response on a non-final
attempt sleeps `base_delay * 2 ** attempt` and retries; on the final
attempt it re-raises.  A timeout/connection error on a non-final attempt
sleeps `15 * (attempt + 1)` and retries; on the final attempt it
re-raises.  Any other HTTP error re-raises at once.  Both waits poll the
cancel flag once per second and return `None` when it is set. -/

/-- What one `requests.get` attempt inside the connect loop produces. -/
inductive AttemptResult where
  | success
  | rateLimited      -- HTTPError with status 429
  | otherHttpError   -- HTTPError with any other status
  | netError         -- Timeout or ConnectionError
deriving DecidableEq, Repr

/-- How the connect loop of `download_url` ended. -/
inductive ConnectOutcome where
  | connected (attempt : Nat)  -- `break` out of the loop on attempt `attempt`
  | raisedRateLimit            -- re-raised 429 after the final attempt
  | raisedHttp                 -- re-raised a non-429 HTTP error
  | raisedNet                  -- re-raised timeout/connection error
  | cancelledDuringWait        -- returned None from inside a backoff wait
deriving DecidableEq, Repr

/-- `base_delay` from `downloader.download_url` line 94. -/
def base_delay : Nat := 30

/-- `max_retries` from `downloader.download_url` line 93. -/
def max_retries : Nat := 3

/-- The connect-retry loop of `downloader.download_url` (lines 96-143).
`responses i` is what the `i`-th `requests.get` yields, `cancelSet`
whether the cancel flag is observed set during a backoff wait,
`attempt` the current loop index and `remaining` how many loop iterations
are left (`remaining = max_retries - attempt` at entry).  Returns the loop
outcome together with the list of backoff sleeps performed, in order. -/
def connectLoop (responses : Nat → AttemptResult) (cancelSet : Bool) :
    Nat → Nat → ConnectOutcome × List Nat
  | _, 0 => (.raisedNet, [])   -- not reachable from `remaining = max_retries > 0`
  | attempt, remaining + 1 =>
    match responses attempt with
    | .success => (.connected attempt, [])
    | .otherHttpError => (.raisedHttp, [])
    | .rateLimited =>
      if remaining = 0 then (.raisedRateLimit, [])
      else if cancelSet then (.cancelledDuringWait, [])
      else
        let w := base_delay * 2 ^ attempt
        let r := connectLoop responses cancelSet (attempt + 1) remaining
        (r.1, w :: r.2)
    | .netError =>
      if remaining = 0 then (.raisedNet, [])
      else if cancelSet then (.cancelledDuringWait, [])
      else
        let w := 15 * (attempt + 1)
        let r := connectLoop responses cancelSet (attempt + 1) remaining
        (r.1, w :: r.2)

/-- The connect phase of `download_url`: the loop entered at attempt 0 with
`max_retries` iterations available. -/
def connectPhase (responses : Nat → AttemptResult) (cancelSet : Bool) :
    ConnectOutcome × List Nat :=
  connectLoop responses cancelSet 0 max_retries

/-- Number of `requests.get` attempts the connect phase performed: every
backoff sleep separated two attempts, plus the attempt that ended the
loop. -/
def connectAttempts (responses : Nat → AttemptResult) (cancelSet : Bool) : Nat :=
  (connectPhase responses cancelSet).2.length + 1

/-! ## Transfer engine size resolution, progress and verification:
`downloader.download_url` (lines 145-259)

The expected size is computed by
`float(size.strip().replace(" ", "").replace(",", ".").upper()[:-2].strip()) * 1024 * 1024`
inside a `try`; on any parse failure the `except` falls back to
`float(response.headers.get('content-length', 0))`.  During streaming,
progress `downloaded / total_size * 100` is reported after every chunk when
`total_size > 0`; after the stream completes the callback is always invoked
once with `100.0`; then, if `total_size > 0 and downloaded < total_size * 0.9`
and the content type starts with `text/html`, the function returns `None`.
Python floats are modelled as `ℚ`; the constant `0.9` is modelled as
`9/10` (the inputs considered are far from the threshold, so the binary
rounding of `0.9` does not affect any comparison proved here). -/

/-- `listIsPrefixOf needle hay` : whether `needle` is a prefix of `hay`. -/
def listIsPrefixOf : List Char → List Char → Bool
  | [], _ => true
  | _ :: _, [] => false
  | a :: as, b :: bs => a == b && listIsPrefixOf as bs

/-- Whether `needle` occurs as a contiguous sublist of the second list. -/
def listContainsSub (needle : List Char) : List Char → Bool
  | [] => listIsPrefixOf needle []
  | c :: rest => listIsPrefixOf needle (c :: rest) || listContainsSub needle rest

/-- Python `sub in s` on strings. -/
def pyIn (sub s : String) : Bool := listContainsSub sub.data s.data

/-- Python `s.strip()`. -/
def pyStrip (s : String) : String :=
  ⟨((s.data.dropWhile Char.isWhitespace).reverse.dropWhile
      Char.isWhitespace).reverse⟩

/-- Replace every occurrence of `pat` (nonempty) by `rep`, scanning left to
right; `fuel` bounds the scan (called with the list's length, which
suffices since every step consumes at least one character). -/
def replaceFuel (pat rep : List Char) : Nat → List Char → List Char
  | _, [] => []
  | 0, s => s
  | fuel + 1, c :: rest =>
    if listIsPrefixOf pat (c :: rest) && !pat.isEmpty then
      rep ++ replaceFuel pat rep fuel (List.drop (pat.length - 1) rest)
    else c :: replaceFuel pat rep fuel rest

/-- Python `s.replace(pat, rep)` (for nonempty `pat`). -/
def pyReplace (s pat rep : String) : String :=
  ⟨replaceFuel pat.data rep.data s.data.length s.data⟩

/-- Python `s.upper()`. -/
def pyUpper (s : String) : String := ⟨s.data.map Char.toUpper⟩

/-- Python `s.lower()`. -/
def pyLower (s : String) : String := ⟨s.data.map Char.toLower⟩

/-- Python `s.startswith(pre)`. -/
def pyStartsWith (s pre : String) : Bool := listIsPrefixOf pre.data s.data

/-- Value of a nonempty all-digit character list, read in base 10. -/
def digitsVal (cs : List Char) : Nat :=
  cs.foldl (fun a c => a * 10 + (c.toNat - 48)) 0

/-- `float(s)` of Python on plain decimal literals, the only shape a size
string such as `"3.5 MB"` can reduce to: optional sign, then digits with at
most one decimal point and at least one digit.  Any other string raises in
Python, modelled as `none`. -/
def pyFloat (s : String) : Option ℚ :=
  let cs := s.data
  let signed : ℚ × List Char :=
    match cs with
    | '-' :: r => (-1, r)
    | '+' :: r => (1, r)
    | r => (1, r)
  let intPart := signed.2.takeWhile (· ≠ '.')
  let rest := signed.2.dropWhile (· ≠ '.')
  match rest with
  | [] =>
    if intPart ≠ [] ∧ intPart.all Char.isDigit then
      some (signed.1 * digitsVal intPart)
    else none
  | _ :: frac =>
    if intPart.all Char.isDigit ∧ frac.all Char.isDigit ∧
        (intPart ≠ [] ∨ frac ≠ []) then
      some (signed.1 * ((digitsVal intPart : ℚ) +
        (digitsVal frac : ℚ) / 10 ^ frac.length))
    else none

/-- The size-hint parse of `download_url` line 149: the string pipeline
`strip / remove spaces / comma to dot / upper / drop last two chars / strip`
fed to `float`, times `1024 * 1024`; `none` models the raised exception on
parse failure. -/
def parse_size_hint (size : String) : Option ℚ :=
  let t := pyUpper (pyReplace (pyReplace (pyStrip size) " " "") "," ".")
  let t2 : String := ⟨t.data.take (t.data.length - 2)⟩
  (pyFloat (pyStrip t2)).map (fun v => v * 1024 * 1024)

/-- Expected-size resolution of `download_url` lines 145-156: the parsed
hint if it parses, else the `content-length` header value
(`contentLength = 0` models an absent header, the `get` default). -/
def resolveTotalSize (sizeHint : String) (contentLength : ℚ) : ℚ :=
  match parse_size_hint sizeHint with
  | some v => v
  | none => contentLength

/-- Cumulative byte counts after each chunk of the stream. -/
def cumSums (acc : Nat) : List Nat → List Nat
  | [] => []
  | c :: rest => (acc + c) :: cumSums (acc + c) rest

/-- Progress values passed to `progress_callback` during the stream loop of
`download_url` (lines 174-218): one report of `downloaded / total * 100`
after each chunk when the total size is known (`> 0`), none otherwise. -/
def progressReports (totalSize : ℚ) (chunks : List Nat) : List ℚ :=
  if totalSize > 0 then
    (cumSums 0 chunks).map (fun d => (d : ℚ) / totalSize * 100)
  else []

/-- The completed-stream path of `download_url` (lines 145-259: connect
succeeded, no cancellation, stream ran to completion): returns the full
list of progress reports, ending with the unconditional `100.0` of line
248, and whether the buffer was returned (`false` = the verification of
lines 251-255 returned `None`). -/
def download_url_completed (sizeHint : String) (contentLength : ℚ)
    (chunks : List Nat) (contentType : String) : List ℚ × Bool :=
  let total := resolveTotalSize sizeHint contentLength
  let downloaded := chunks.sum
  let reports := progressReports total chunks ++ [100]
  let ok :=
    if 0 < total ∧ (downloaded : ℚ) < total * (9 / 10) ∧
        pyStartsWith contentType "text/html" = true then false else true
  (reports, ok)

/-! ## Transfer engine exception flow: `downloader.download_url`
(lines 89, 169-238, 261-263)

The whole body sits in `try ... except requests.exceptions.RequestException:
return None`.  The stream loop additionally catches `ConnectionError` and
`ChunkedEncodingError` (both `RequestException` subclasses).  The progress
callback is invoked at line 191 inside the stream loop; an exception it
raises matches none of these handlers and escapes `download_url`. -/

/-- Exception classes relevant to `download_url`'s handlers. -/
inductive PyExc where
  | httpError               -- requests.exceptions.HTTPError
  | connectionError         -- requests.exceptions.ConnectionError
  | chunkedEncodingError    -- requests.exceptions.ChunkedEncodingError
  | timeoutError            -- requests.exceptions.Timeout
  | callbackError           -- an exception raised by `progress_callback`
deriving DecidableEq, Repr

/-- Whether an exception class is (a subclass of)
`requests.exceptions.RequestException`, the only class the outer handler of
`download_url` (lines 261-263) catches. -/
def isRequestException : PyExc → Bool
  | .callbackError => false
  | _ => true

/-- What a call of `download_url` produces, exception-wise. -/
inductive FetchResult where
  | buffer                  -- returned the completed BytesIO buffer
  | noneResult              -- returned None (typed failure)
  | uncaught (e : PyExc)    -- an exception escaped the function
deriving DecidableEq, Repr

/-- The outer exception handler of `download_url` (lines 89, 261-263)
applied to whatever the body raised: a `RequestException` becomes the typed
`None` failure, anything else escapes. -/
def download_url_except (raised : Option PyExc) : FetchResult :=
  match raised with
  | none => .buffer
  | some e => if isRequestException e then .noneResult else .uncaught e

/-- The exception raised out of the stream loop by the progress callback:
the callback runs once per chunk when the total size is known (line 191),
so it raises exactly when it is a raising callback, the size is known and
at least one chunk arrived. -/
def streamRaises (cbRaises totalKnown hasChunks : Bool) : Option PyExc :=
  if cbRaises && totalKnown && hasChunks then some .callbackError else none

/-- `download_url`'s result as a function of the progress callback's
behavior on a stream that would otherwise complete and verify. -/
def download_url_exc (cbRaises totalKnown hasChunks : Bool) : FetchResult :=
  download_url_except (streamRaises cbRaises totalKnown hasChunks)

/-! ## Countdown-gate resolution: `book_manager._get_download_url`
(lines 610-646), the `/slow_download/` branch

When the fetched page has no "Download now" link but a
`js-partner-countdown` span, the code waits the declared number of seconds
(`cancel_flag.wait(timeout=sleep_time)`, which returns early exactly when
cancellation fires) and then calls `_get_download_url` on the same link
recursively, fetching the page again.  The environment is modelled as the
list of pages successive fetches return; an exhausted list models
`html_get_page` returning `""`. -/

/-- What one fetch of a `/slow_download/` page shows. -/
inductive SlowPage where
  | downloadNow (href : String)   -- a "Download now" anchor is present
  | countdown (secs : Nat)        -- only a countdown span is present
  | neither                       -- neither: `url` stays "" and "" is returned
deriving DecidableEq, Repr

/-- How resolution of one candidate link ended. -/
inductive ResolveOutcome where
  | url (s : String)     -- a fetchable URL
  | noUrl                -- resolution failure, "" returned
  | cancelledWait        -- cancellation fired during a countdown wait, "" returned
deriving DecidableEq, Repr

/-- The recursive `/slow_download/` resolution of `_get_download_url`
(lines 630-646).  `pages` is the page each successive fetch returns;
`cancels i` is whether the cancel flag fires during the `i`-th countdown
wait.  Returns the outcome and the durations of the countdown waits that
ran to completion, in order (each equal to the gate's declared duration,
the timeout passed to `Event.wait`). -/
def getDownloadUrlSlow (cancels : Nat → Bool) :
    List SlowPage → Nat → ResolveOutcome × List Nat
  | [], _ => (.noUrl, [])
  | .downloadNow h :: _, _ => (.url h, [])
  | .neither :: _, _ => (.noUrl, [])
  | .countdown secs :: rest, i =>
    if cancels i then (.cancelledWait, [])
    else
      let r := getDownloadUrlSlow cancels rest (i + 1)
      (r.1, secs :: r.2)

/-! ## Filename generation and delivery discipline:
`backend._generate_comprehensive_filename` (lines 594-737) and
`backend._download_book_with_cancellation` (lines 860-869, 942-968)

`_generate_comprehensive_filename(book_info, book_id)` builds the filename
from the book's metadata only: its `book_id` argument appears solely in log
statements, never in the constructed name.  The worker writes the artifact
to `TMP_DIR / book_name`, later moves it (`shutil.move`) to
`INGEST_DIR / f"{book_id}.crdownload"`, and finally renames
(`os.rename`) that staging file to `INGEST_DIR / book_name`.

The early-URL metadata-correction step (lines 365-437 of the first copy of
the function body) rewrites the `BookInfo` fields from the network before
the name is built; the embedding takes the post-correction `BookInfo` as
its input.  The regex search for a series number (only reachable when the
title contains "thursday murder club") is an external-collaborator parse,
passed in as `seriesNumMatch` ("" = no match). -/

/-- The fields of `models.BookInfo` that the filename generator reads.
`info` is the auxiliary metadata dict (key to value list). -/
structure BookInfoM where
  title : String
  author : String
  publisher : String
  year : String
  format : String
  info : List (String × List String)
deriving DecidableEq, Repr

/-- The URL-entity decoding applied to title and author (`%2C`, `%27`,
`%3A`, `%28`, `%29`, `%20`). -/
def decodeEntities (s : String) : String :=
  let apos : String := ⟨[Char.ofNat 39]⟩
  pyReplace (pyReplace (pyReplace (pyReplace (pyReplace (pyReplace
    s "%2C" ",") "%27" apos) "%3A" ":") "%28" "(") "%29" ")") "%20" " "

/-- Python `s.split()` restricted to space separators (the author strings
fed to it are space-separated names): split on runs of spaces, dropping
empty pieces. -/
def pySplitSpaces (s : String) : List String :=
  ((s.data.foldr
    (fun c acc =>
      if c = ' ' then [] :: acc
      else match acc with
        | [] => [[c]]
        | w :: ws => (c :: w) :: ws)
    ([] : List (List Char))).filter (fun w => !w.isEmpty)).map
    (fun w => (⟨w⟩ : String))

/-- Year lookup of lines 637-643: the first `info` entry whose key contains
"year" (case-insensitively) and has a value, else `""`. -/
def firstYear (info : List (String × List String)) : String :=
  match info.find? (fun kv => pyIn "year" (pyLower kv.1) && !kv.2.isEmpty) with
  | some kv => kv.2.headD ""
  | none => ""

/-- ISBN cleanup of line 654: keep only digits and `X`. -/
def isbnClean (s : String) : String :=
  ⟨s.data.filter (fun c => c.isDigit || c == 'X')⟩

/-- ISBN lookup of lines 646-655: the first `info` entry whose key contains
"isbn" (case-insensitively) and has a value (the inner
`'13' in key or (not isbn and values)` guard is always true at the first
such entry, where `isbn` is still empty, and the loop breaks there),
cleaned; else `""`. -/
def firstIsbn (info : List (String × List String)) : String :=
  match info.find? (fun kv => pyIn "isbn" (pyLower kv.1) && !kv.2.isEmpty) with
  | some kv => isbnClean (kv.2.headD "")
  | none => ""

/-- Publisher cleanup of lines 657-674. -/
def cleanPublisher (publisher : String) : String :=
  if publisher ≠ "" ∧ publisher ≠ "Unknown Publisher" then
    let pc := pyStrip publisher
    if pyIn "penguin" (pyLower pc) then
      if pyIn "random house" (pyLower pc) then "Penguin Random House"
      else if pyIn "uk" (pyLower pc) || pyIn "britain" (pyLower pc) then
        "Penguin Random House UK"
      else "Penguin Books"
    else if pyIn "dorman" (pyLower pc) && pyIn "viking" (pyLower pc) then
      "Pamela Dorman Books"
    else if pc.data.length < 30 then pc else ""
  else ""

/-- The truncation loop of lines 725-730: append each further component
whose `" -- "`-prefixed length still fits in `remaining`, stopping at the
first that does not. -/
def truncAdd (remaining : Int) : List String → List String
  | [] => []
  | c :: rest =>
    let l : Int := (" -- " ++ c).data.length
    if l ≤ remaining then c :: truncAdd (remaining - l) rest else []

/-- `backend._generate_comprehensive_filename` (lines 594-737) on the
post-correction `BookInfo`.  The `book_id` argument of the Python function
is used only in logging and therefore does not appear. -/
def generate_comprehensive_filename (b : BookInfoM)
    (seriesNumMatch : String) : String :=
  let bTitle := decodeEntities b.title
  let bAuthor := decodeEntities b.author
  let title :=
    if bTitle ≠ "" ∧ bTitle ≠ "Unknown Title" then bTitle else "Unknown_Title"
  let author :=
    if bAuthor ≠ "" ∧ bAuthor ≠ "Unknown Author" then
      let an := pyStrip bAuthor
      if pyIn " " an then
        let parts := pySplitSpaces an
        if parts.length = 2 then
          parts.getLastD "" ++ ", " ++ parts.headD ""
        else an
      else an
    else ""
  let seriesInfo :=
    if pyIn "thursday murder club" (pyLower title) then "Thursday Murder Club"
    else ""
  let seriesNumber := if seriesInfo ≠ "" then seriesNumMatch else ""
  let year := if b.year ≠ "" then b.year else firstYear b.info
  let isbn := firstIsbn b.info
  let publisher := cleanPublisher b.publisher
  let titleClean := pyReplace title "_" " "
  let comps := [titleClean]
    ++ (if author ≠ "" then [author] else [])
    ++ (if seriesInfo ≠ "" then
          [seriesInfo ++ (if seriesNumber ≠ "" then ", " ++ seriesNumber else "")
            ++ (if year ≠ "" then ", " ++ year else "")]
        else if year ≠ "" then [year] else [])
    ++ (if publisher ≠ "" then [publisher] else [])
    ++ (if isbn ≠ "" then [isbn] else [])
  let ext := if b.format ≠ "" then b.format else "epub"
  let fn := String.intercalate " -- " comps ++ "." ++ ext
  if fn.data.length > 240 then
    let essential := [titleClean] ++ (if author ≠ "" then [author] else [])
    let remaining : Int := 240 -
      (String.intercalate " -- " essential).data.length -
      ("." ++ ext).data.length - 10
    String.intercalate " -- " (essential ++ truncAdd remaining (comps.drop 2))
      ++ "." ++ ext
  else fn

/-- The filename chosen by `_download_book_with_cancellation`
(lines 860-864): the comprehensive metadata name when `USE_BOOK_TITLE` is
set, else `f"{book_id}.{book_info.format}"`. -/
def book_filename (useBookTitle : Bool) (bookId : String) (b : BookInfoM)
    (seriesNumMatch : String) : String :=
  if useBookTitle then generate_comprehensive_filename b seriesNumMatch
  else bookId ++ "." ++ b.format

/-- A `pathlib` path `dir / name`, as the directory (an env-configured
constant) and the filename within it. -/
structure FPath where
  dir : String
  name : String
deriving DecidableEq, Repr

/-- The temporary-directory and ingest(delivery)-directory configuration
constants `TMP_DIR` and `INGEST_DIR` of `env.py`; distinct directories. -/
def TMP_DIR : String := "TMP_DIR"

/-- See `TMP_DIR`. -/
def INGEST_DIR : String := "INGEST_DIR"

/-- `book_path = TMP_DIR / book_name` (line 869). -/
def book_path (useBookTitle : Bool) (bookId : String) (b : BookInfoM)
    (seriesNumMatch : String) : FPath :=
  ⟨TMP_DIR, book_filename useBookTitle bookId b seriesNumMatch⟩

/-- A filesystem operation performed by the delivery code. -/
inductive FileOp where
  | write (dst : FPath)        -- `download_book` writes the buffer to `book_path`
  | move (src dst : FPath)     -- `shutil.move(book_path, intermediate_path)`
  | rename (src dst : FPath)   -- `os.rename(intermediate_path, final_path)`
deriving DecidableEq, Repr

/-- The path each operation creates. -/
def FileOp.target : FileOp → FPath
  | .write dst => dst
  | .move _ dst => dst
  | .rename _ dst => dst

/-- The file operations of a successful delivery, in program order
(`book_manager.download_book` line 598 writes the artifact;
`_download_book_with_cancellation` lines 942-965 stage and rename it). -/
def deliverySteps (bookId bookName : String) : List FileOp :=
  [ .write ⟨TMP_DIR, bookName⟩,
    .move ⟨TMP_DIR, bookName⟩ ⟨INGEST_DIR, bookId ++ ".crdownload"⟩,
    .rename ⟨INGEST_DIR, bookId ++ ".crdownload"⟩ ⟨INGEST_DIR, bookName⟩ ]

/-! ## Coordinator concurrency: `backend.concurrent_download_loop`
(lines 1122-1153)

The coordinator owns `active_futures`, a map from in-flight worker futures
to book ids.  Each cycle it (a) pops the futures that are `done()`, and
(b) while `len(active_futures) < MAX_CONCURRENT_DOWNLOADS`, calls
`book_queue.get_next()` and submits a worker for the returned job,
recording its future in `active_futures`.

`book_queue` lives in `models.py`, which is not part of the sources; its
operations are modelled from the spec.  Modelled from the spec
(§4.1 JobQueue, missing `models.BookQueue`):
* all queue operations are atomic with respect to each other;
* `get_next()` selects a QUEUED job and atomically transitions it to
  DOWNLOADING (priority order does not matter for the counting claim);
* `add` inserts a new job as QUEUED (re-`add` of a live id updates only
  metadata/priority, so it does not change any status);
* `cancel` on a QUEUED job moves it to CANCELLED; on a DOWNLOADING job it
  only signals the token (no status change);
* `clear_completed` removes exactly the terminal jobs.

A state records each job's status and the coordinator's future map as a
list of `(book id, done?)` entries.  Worker bodies
(`_process_single_download`) update the status of their own job and, on
return, mark their future done; the coordinator's `get_next`-plus-`submit`
sequence is one step, sound because the coordinator thread runs it without
interleaving its own reads of `active_futures` (only the coordinator
mutates `active_futures`), and concurrent worker steps are separate
transitions. -/

/-- System state for the coordinator model: job statuses (association list
keyed by book id) and the coordinator's `active_futures` map (book id of
each future, and whether the future is done). -/
structure SysState where
  jobs : List (String × QueueStatus)
  active : List (String × Bool)
deriving DecidableEq, Repr

/-- Status write for one job id (a `book_queue.update_status`). -/
def setStatus (jobs : List (String × QueueStatus)) (id : String)
    (st : QueueStatus) : List (String × QueueStatus) :=
  jobs.map (fun p => if p.1 = id then (p.1, st) else p)

/-- One atomic step of the system: coordinator dispatch/reap, queue
mutations, and worker-side status writes, as described in the section
comment. -/
inductive Step (N : Nat) : SysState → SysState → Prop where
  | add (s : SysState) (id : String)
      (h : id ∉ s.jobs.map Prod.fst) :
      Step N s ⟨(id, .queued) :: s.jobs, s.active⟩
  | cancelQueued (s : SysState) (id : String)
      (h : (id, QueueStatus.queued) ∈ s.jobs) :
      Step N s ⟨setStatus s.jobs id .cancelled, s.active⟩
  | dispatch (s : SysState) (id : String)
      (hq : (id, QueueStatus.queued) ∈ s.jobs)
      (hcap : s.active.length < N) :
      Step N s ⟨setStatus s.jobs id .downloading, (id, false) :: s.active⟩
  | workerSetDownloading (s : SysState) (id : String)
      (h : (id, false) ∈ s.active) :
      Step N s ⟨setStatus s.jobs id .downloading, s.active⟩
  | workerFinish (s : SysState) (id : String) (st : QueueStatus)
      (h : (id, false) ∈ s.active) (hterm : st.isTerminal = true) :
      Step N s ⟨setStatus s.jobs id st,
        (id, true) :: s.active.erase (id, false)⟩
  | reap (s : SysState) (id : String)
      (h : (id, true) ∈ s.active) :
      Step N s ⟨s.jobs, s.active.erase (id, true)⟩
  | clearCompleted (s : SysState) :
      Step N s ⟨s.jobs.filter (fun p => !p.2.isTerminal), s.active⟩

/-- The empty initial state: no jobs, no futures. -/
def initState : SysState := ⟨[], []⟩

/-- States the system can reach from startup. -/
def Reachable (N : Nat) (s : SysState) : Prop :=
  Relation.ReflTransGen (Step N) initState s

/-- Number of jobs whose status is DOWNLOADING. -/
def downloadingCount (s : SysState) : Nat :=
  (s.jobs.filter (fun p => p.2 == QueueStatus.downloading)).length

/-- The inductive invariant: job ids are unique, every DOWNLOADING job has
a not-yet-done future in `active_futures`, and `active_futures` holds at
most `N` entries. -/
def Inv (N : Nat) (s : SysState) : Prop :=
  (s.jobs.map Prod.fst).Nodup ∧
  (∀ p ∈ s.jobs, p.2 = QueueStatus.downloading → (p.1, false) ∈ s.active) ∧
  s.active.length ≤ N

/-- A concrete post-correction book record: an ordinary title and author,
no year/ISBN metadata, epub format.  Two different Anna's-Archive ids (two
md5 hashes, e.g. the same edition from two mirrors) can carry exactly these
fields. -/
def exBook : BookInfoM :=
  { title := "Plain Example Book Title", author := "Jane Doe",
    publisher := "Unknown Publisher", year := "", format := "epub",
    info := [] }

/-! ## Theorems -/

lemma setStatus_keys (jobs : List (String × QueueStatus)) (id : String)
    (st : QueueStatus) :
    (setStatus jobs id st).map Prod.fst = jobs.map Prod.fst := by
  rw [setStatus, List.map_map]
  refine List.map_congr_left ?_
  intro p _
  by_cases h : p.1 = id <;> simp [h]

lemma mem_setStatus {jobs : List (String × QueueStatus)} {id : String}
    {st : QueueStatus} {p : String × QueueStatus}
    (hp : p ∈ setStatus jobs id st) :
    (p.1 = id ∧ p.2 = st) ∨ (p ∈ jobs ∧ p.1 ≠ id) := by
  obtain ⟨q, hq, hfq⟩ := List.mem_map.mp hp
  by_cases h : q.1 = id
  · rw [if_pos h] at hfq
    left
    exact ⟨by rw [← hfq]; exact h, by rw [← hfq]⟩
  · rw [if_neg h] at hfq
    right
    rw [← hfq]
    exact ⟨hq, h⟩

lemma isTerminal_ne_downloading {st : QueueStatus}
    (h : st.isTerminal = true) : st ≠ QueueStatus.downloading := by
  cases st <;> simp_all [QueueStatus.isTerminal]

lemma inv_step {N : Nat} {s s' : SysState} (hst : Step N s s')
    (hi : Inv N s) : Inv N s' := by
  obtain ⟨hnd, hmem, hlen⟩ := hi
  cases hst with
  | add id h =>
    refine ⟨by rw [List.map_cons]; exact List.nodup_cons.mpr ⟨h, hnd⟩, ?_, hlen⟩
    intro p hp hdl
    rcases List.mem_cons.mp hp with rfl | hp'
    · simp at hdl
    · exact hmem p hp' hdl
  | cancelQueued id h =>
    refine ⟨by rw [setStatus_keys]; exact hnd, ?_, hlen⟩
    intro p hp hdl
    rcases mem_setStatus hp with ⟨_, h2⟩ | ⟨hp', _⟩
    · rw [h2] at hdl; simp at hdl
    · exact hmem p hp' hdl
  | dispatch id hq hcap =>
    refine ⟨by rw [setStatus_keys]; exact hnd, ?_, by simpa using hcap⟩
    intro p hp hdl
    rcases mem_setStatus hp with ⟨h1, _⟩ | ⟨hp', _⟩
    · rw [h1]; exact List.mem_cons_self _ _
    · exact List.mem_cons_of_mem _ (hmem p hp' hdl)
  | workerSetDownloading id h =>
    refine ⟨by rw [setStatus_keys]; exact hnd, ?_, hlen⟩
    intro p hp hdl
    rcases mem_setStatus hp with ⟨h1, _⟩ | ⟨hp', _⟩
    · rw [h1]; exact h
    · exact hmem p hp' hdl
  | workerFinish id st h hterm =>
    refine ⟨by rw [setStatus_keys]; exact hnd, ?_, ?_⟩
    · intro p hp hdl
      rcases mem_setStatus hp with ⟨_, h2⟩ | ⟨hp', hne⟩
      · exact absurd (by rw [← h2]; exact hdl) (isTerminal_ne_downloading hterm)
      · exact List.mem_cons_of_mem _
          ((List.mem_erase_of_ne (by simp [hne])).mpr (hmem p hp' hdl))
    · have hpos : 0 < s.active.length := List.length_pos.mpr (List.ne_nil_of_mem h)
      have := List.length_erase_of_mem h
      simp only [List.length_cons, this]
      omega
  | reap id h =>
    refine ⟨hnd, ?_, le_trans (List.erase_sublist _ _).length_le hlen⟩
    intro p hp hdl
    exact (List.mem_erase_of_ne (by simp)).mpr (hmem p hp hdl)
  | clearCompleted =>
    refine ⟨hnd.sublist ((List.filter_sublist _).map Prod.fst), ?_, hlen⟩
    intro p hp hdl
    exact hmem p (List.mem_filter.mp hp).1 hdl

lemma inv_reachable {N : Nat} {s : SysState} (h : Reachable N s) :
    Inv N s := by
  induction h with
  | refl =>
    refine ⟨by simp [initState], ?_, by simp [initState]⟩
    intro p hp
    simp [initState] at hp
  | tail _ hstep ih => exact inv_step hstep ih

/-- C1: in every reachable state of the coordinator system the number of
jobs with status DOWNLOADING is at most the configured concurrency limit
`N` (`MAX_CONCURRENT_DOWNLOADS`): the coordinator only dispatches while
the occupied worker-slot count is below `N`. -/
theorem c1_downloading_at_most_limit (N : Nat) (s : SysState)
    (h : Reachable N s) : downloadingCount s ≤ N := by
  obtain ⟨hnd, hmem, hlen⟩ := inv_reachable h
  have hsub : (s.jobs.filter
      (fun p => p.2 == QueueStatus.downloading)).Sublist s.jobs :=
    List.filter_sublist _
  have hkeys : ((s.jobs.filter
      (fun p => p.2 == QueueStatus.downloading)).map Prod.fst).Nodup :=
    hnd.sublist (hsub.map Prod.fst)
  have hpairs : (((s.jobs.filter
      (fun p => p.2 == QueueStatus.downloading)).map Prod.fst).map
        (fun x => (x, false))).Nodup :=
    hkeys.map (by intro a b hab; simpa using hab)
  have hsub2 : ∀ y ∈ ((s.jobs.filter
      (fun p => p.2 == QueueStatus.downloading)).map Prod.fst).map
        (fun x => (x, false)), y ∈ s.active := by
    intro y hy
    obtain ⟨x, hx, rfl⟩ := List.mem_map.mp hy
    obtain ⟨p, hp, rfl⟩ := List.mem_map.mp hx
    have hpj := List.mem_filter.mp hp
    exact hmem p hpj.1 (by simpa using hpj.2)
  have hle := (List.subperm_of_subset hpairs hsub2).length_le
  calc downloadingCount s
      = (((s.jobs.filter
          (fun p => p.2 == QueueStatus.downloading)).map Prod.fst).map
            (fun x => (x, false))).length := by
        simp [downloadingCount]
    _ ≤ s.active.length := hle
    _ ≤ N := hlen

/-- Witness for C1 at a concrete reachable state: with limit `N = 2`, the
state reached by enqueueing job `"a"` and dispatching it has at most 2
downloading jobs. -/
theorem c1_witness :
    downloadingCount ⟨[("a", QueueStatus.downloading)], [("a", false)]⟩ ≤ 2 := by
  have h1 : Step 2 initState ⟨[("a", QueueStatus.queued)], []⟩ := by
    have := Step.add (N := 2) initState "a" (by simp [initState])
    simpa [initState] using this
  have h2 : Step 2 ⟨[("a", QueueStatus.queued)], []⟩
      ⟨[("a", QueueStatus.downloading)], [("a", false)]⟩ := by
    have := Step.dispatch (N := 2) ⟨[("a", QueueStatus.queued)], []⟩ "a"
      (by simp) (by simp)
    simpa [setStatus] using this
  exact c1_downloading_at_most_limit 2 _
    (Relation.ReflTransGen.tail (Relation.ReflTransGen.tail
      Relation.ReflTransGen.refl h1) h2)

/-- C2: in `download_book`'s failover loop, the failure of any single
candidate (empty resolution, raised resolution, failed transfer or failed
write) never terminates the job — the loop result on the remaining
candidates is unchanged — and the job is reported failed (`False`, turned
into ERROR by the worker) exactly when every candidate failed. -/
theorem c2_failover_error_only_on_exhaustion
    (c : CandidateOutcome) (rest cs : List CandidateOutcome) :
    (c ≠ .success → download_book (c :: rest) = download_book rest) ∧
    (download_book cs = false ↔ ∀ x ∈ cs, x ≠ .success) := by
  constructor
  · intro hc
    simp [download_book, hc]
  · induction cs with
    | nil => simp [download_book]
    | cons d ds ih =>
      by_cases hd : d = CandidateOutcome.success
      · subst hd
        simp [download_book]
      · simp [download_book, hd, ih]

/-- Witness for C2: a failing candidate advances the loop, and a list of
only failing candidates yields `False` (exhaustion). -/
theorem c2_witness :
    download_book [CandidateOutcome.transferFailed] = download_book [] ∧
    download_book [CandidateOutcome.resolvedEmpty,
      CandidateOutcome.transferFailed] = false :=
  ⟨(c2_failover_error_only_on_exhaustion .transferFailed [] []).1 (by decide),
   (c2_failover_error_only_on_exhaustion .resolvedEmpty []
      [.resolvedEmpty, .transferFailed]).2.mpr (by decide)⟩

/-- C3: `_process_single_download` finalizes with CANCELLED whenever the
cancel flag is set at finalization, regardless of whether the worker
returned a path, returned None, or raised; a raised worker error yields
ERROR exactly when the flag was not set (and a returned path yields
AVAILABLE, no path yields ERROR). -/
theorem c3_cancellation_precedence (o : WorkerOutcome) :
    process_single_download o true = QueueStatus.cancelled ∧
    process_single_download .raised false = QueueStatus.error ∧
    process_single_download .returnedPath false = QueueStatus.available ∧
    process_single_download .returnedNone false = QueueStatus.error :=
  ⟨by cases o <;> rfl, rfl, rfl, rfl⟩

lemma connectLoop_allRateLimited (attempt remaining : Nat) :
    connectLoop (fun _ => .rateLimited) false attempt (remaining + 1) =
      (.raisedRateLimit,
        (List.range remaining).map (fun i => base_delay * 2 ^ (attempt + i))) := by
  induction remaining generalizing attempt with
  | zero => simp [connectLoop]
  | succ r ih =>
    rw [connectLoop]
    simp only [Nat.succ_ne_zero, if_false, Bool.false_eq_true, ih (attempt + 1)]
    rw [List.range_succ_eq_map, List.map_cons, List.map_map]
    simp [Function.comp, Nat.add_assoc, Nat.add_comm 1]

/-- C4: when every attempt is rate-limited (HTTP 429), `download_url`'s
connect loop performs exactly `max_retries` attempts and then surfaces the
failure, and the backoff sleeps between consecutive attempts are exactly
`base_delay * 2 ^ i` — each double the previous one, strictly
increasing. -/
theorem c4_rate_limit_retry_backoff (responses : Nat → AttemptResult)
    (h : ∀ i, responses i = .rateLimited) :
    (connectPhase responses false).1 = .raisedRateLimit ∧
    connectAttempts responses false = max_retries ∧
    (connectPhase responses false).2 =
      (List.range (max_retries - 1)).map (fun i => base_delay * 2 ^ i) ∧
    List.Chain' (fun a b => b = 2 * a) (connectPhase responses false).2 ∧
    List.Chain' (· < ·) (connectPhase responses false).2 := by
  have hre : responses = fun _ => AttemptResult.rateLimited := funext h
  subst hre
  have hcp : connectPhase (fun _ => AttemptResult.rateLimited) false =
      (.raisedRateLimit, [30, 60]) := by
    show connectLoop (fun _ => AttemptResult.rateLimited) false 0 (2 + 1) = _
    rw [connectLoop_allRateLimited]
    decide
  refine ⟨by rw [hcp], ?_, by rw [hcp]; decide,
    by rw [hcp]; norm_num [List.chain'_cons],
    by rw [hcp]; norm_num [List.chain'_cons]⟩
  rw [connectAttempts, hcp]
  decide

/-- Witness for C4 at the all-429 response environment. -/
theorem c4_witness :
    (connectPhase (fun _ => AttemptResult.rateLimited) false).1 =
      ConnectOutcome.raisedRateLimit ∧
    connectAttempts (fun _ => AttemptResult.rateLimited) false = max_retries ∧
    (connectPhase (fun _ => AttemptResult.rateLimited) false).2 =
      (List.range (max_retries - 1)).map (fun i => base_delay * 2 ^ i) ∧
    List.Chain' (fun a b => b = 2 * a)
      (connectPhase (fun _ => AttemptResult.rateLimited) false).2 ∧
    List.Chain' (· < ·)
      (connectPhase (fun _ => AttemptResult.rateLimited) false).2 :=
  c4_rate_limit_retry_backoff _ (fun _ => rfl)

/-- C5: when the resolved expected size is known (positive) and the
completed stream delivered fewer than 90% of the expected bytes, a
markup-shaped (`text/html`) content type makes `download_url` classify the
transfer as failed (return `None`) despite the nominally successful
transport call. -/
theorem c5_short_markup_failure (sizeHint contentType : String)
    (contentLength : ℚ) (chunks : List Nat)
    (hknown : 0 < resolveTotalSize sizeHint contentLength)
    (hshort : ((chunks.sum : Nat) : ℚ) <
      resolveTotalSize sizeHint contentLength * (9 / 10))
    (hmarkup : pyStartsWith contentType "text/html" = true) :
    (download_url_completed sizeHint contentLength chunks contentType).2 =
      false := by
  simp only [download_url_completed]
  rw [if_pos ⟨hknown, hshort, hmarkup⟩]

/-- Witness for C5: a 10 MB size hint with a stream delivering 50% of the
bytes and an HTML content type is classified as failed. -/
theorem c5_witness :
    0 < resolveTotalSize "10MB" 0 ∧
    ((([5242880] : List Nat).sum : ℚ)) < resolveTotalSize "10MB" 0 * (9 / 10) ∧
    (download_url_completed "10MB" 0 [5242880] "text/html; charset=utf-8").2 =
      false := by
  have hp : parse_size_hint "10MB" = some (1 * (10 : ℚ) * 1024 * 1024) := rfl
  have ht : resolveTotalSize "10MB" 0 = 1 * (10 : ℚ) * 1024 * 1024 := by
    rw [resolveTotalSize, hp]
  have h1 : 0 < resolveTotalSize "10MB" 0 := by rw [ht]; norm_num
  have h2 : ((([5242880] : List Nat).sum : ℚ)) <
      resolveTotalSize "10MB" 0 * (9 / 10) := by
    rw [ht]; norm_num
  exact ⟨h1, h2, c5_short_markup_failure _ _ _ _ h1 h2 rfl⟩

/-- C9: the expected size used by `download_url` is resolved in the fixed
order: parsed size hint first; else the `content-length` header; else
(header absent/zero) the size is unknown and the only progress report of a
completed stream is the final `100.0`. -/
theorem c9_size_resolution_order (sizeHint ct : String) (cl : ℚ)
    (chunks : List Nat) :
    (∀ v, parse_size_hint sizeHint = some v →
      resolveTotalSize sizeHint cl = v) ∧
    (parse_size_hint sizeHint = none → resolveTotalSize sizeHint cl = cl) ∧
    (parse_size_hint sizeHint = none → cl ≤ 0 →
      (download_url_completed sizeHint cl chunks ct).1 = [100] ∧
      ∀ p ∈ (download_url_completed sizeHint cl chunks ct).1,
        p = 0 ∨ p = 100) := by
  refine ⟨?_, ?_, ?_⟩
  · intro v hv
    rw [resolveTotalSize, hv]
  · intro hn
    rw [resolveTotalSize, hn]
  · intro hn hcl
    have ht : resolveTotalSize sizeHint cl = cl := by rw [resolveTotalSize, hn]
    have hr : (download_url_completed sizeHint cl chunks ct).1 = [100] := by
      simp only [download_url_completed, progressReports, ht]
      rw [if_neg (by exact not_lt.mpr hcl)]
      simp
    refine ⟨hr, ?_⟩
    rw [hr]
    intro p hp
    simp at hp
    right
    exact hp

/-- Witness for C9: an unparsable hint falls back to the header, and with
no header the only report is the final 100%. -/
theorem c9_witness :
    resolveTotalSize "unknown" 5 = 5 ∧
    (download_url_completed "unknown" 0 [4096, 4096] "app/epub").1 = [100] := by
  have hn : parse_size_hint "unknown" = none := rfl
  exact ⟨(c9_size_resolution_order "unknown" "app/epub" 5 []).2.1 hn,
    ((c9_size_resolution_order "unknown" "app/epub" 0 [4096, 4096]).2.2 hn
      le_rfl).1⟩

/-- C10: whenever the stream runs to completion, `download_url` reports
100% progress (the unconditional final callback) before the size/markup
verification runs; hence a transfer that the verification then classifies
as failed has still reported 100% to its observer. -/
theorem c10_completion_reports_100 (sizeHint ct : String) (cl : ℚ)
    (chunks : List Nat) :
    ((download_url_completed sizeHint cl chunks ct).1).getLast? =
      some 100 ∧
    ((download_url_completed sizeHint cl chunks ct).2 = false →
      (100 : ℚ) ∈ (download_url_completed sizeHint cl chunks ct).1) := by
  constructor
  · show (progressReports (resolveTotalSize sizeHint cl) chunks ++
        [(100 : ℚ)]).getLast? = some (100 : ℚ)
    simp
  · intro _
    exact List.mem_append_right _ (List.mem_singleton_self _)

/-- Witness for C10: the failing 50%-HTML transfer of C5's scenario still
reports 100% progress. -/
theorem c10_witness :
    ((download_url_completed "10MB" 0 [5242880] "text/html").1).getLast? =
      some 100 ∧
    (100 : ℚ) ∈ (download_url_completed "10MB" 0 [5242880] "text/html").1 := by
  have h := c10_completion_reports_100 "10MB" "text/html" 0 [5242880]
  refine ⟨h.1, h.2 ?_⟩
  have hp : parse_size_hint "10MB" = some (1 * (10 : ℚ) * 1024 * 1024) := rfl
  have ht : resolveTotalSize "10MB" 0 = 1 * (10 : ℚ) * 1024 * 1024 := by
    rw [resolveTotalSize, hp]
  simp only [download_url_completed]
  rw [if_pos ⟨by rw [ht]; norm_num, by rw [ht]; norm_num, rfl⟩]

/-- C7 fails as stated: `_get_download_url` retries recursively after each
countdown gate, so resolving one candidate whose source chains two gates
(5s then 7s) before revealing the link waits 5 + 7 = 12 seconds — more
than either single declared duration, refuting "waits at most that
declared duration before either producing a fetchable URL or failing". -/
theorem c7_counterexample :
    getDownloadUrlSlow (fun _ => false)
      [.countdown 5, .countdown 7, .downloadNow "u"] 0 =
      (.url "u", [5, 7]) ∧
    ([5, 7] : List Nat).sum > 5 ∧ ([5, 7] : List Nat).sum > 7 := by
  decide

lemma getDownloadUrlSlow_replicate (n d : Nat) (u : String) (i : Nat) :
    getDownloadUrlSlow (fun _ => false)
      (List.replicate n (.countdown d) ++ [.downloadNow u]) i =
      (.url u, List.replicate n d) := by
  induction n generalizing i with
  | zero => simp [getDownloadUrlSlow]
  | succ k ih => simp [List.replicate_succ, getDownloadUrlSlow, ih]

/-- C7 amended: each individual countdown wait lasts at most the declared
duration (it is the timeout handed to `Event.wait`) and is cancellable —
cancellation during the wait abandons only this candidate, returning a
resolution failure; but the recursion retries after every completed gate,
so the total waiting over a chain of `n` gates of `d` seconds each is
`n * d`, not bounded by any single gate's declared duration. -/
theorem c7_amended_thm (n d : Nat) (u : String) :
    getDownloadUrlSlow (fun _ => false)
      (List.replicate n (.countdown d) ++ [.downloadNow u]) 0 =
      (.url u, List.replicate n d) ∧
    (List.replicate n d).sum = n * d ∧
    (∀ (cancels : Nat → Bool) (secs i : Nat) (rest : List SlowPage),
      cancels i = true →
      getDownloadUrlSlow cancels (.countdown secs :: rest) i =
        (.cancelledWait, [])) := by
  refine ⟨getDownloadUrlSlow_replicate n d u 0, ?_, ?_⟩
  · simp [List.sum_replicate, smul_eq_mul]
  · intro cancels secs i rest hc
    simp [getDownloadUrlSlow, hc]

/-- Witness for C7's amended statement: two chained 5-second gates wait
10 seconds in total, and a cancellation during a gate's wait abandons the
candidate. -/
theorem c7_witness :
    getDownloadUrlSlow (fun _ => false)
      (List.replicate 2 (.countdown 5) ++ [.downloadNow "u"]) 0 =
      (.url "u", List.replicate 2 5) ∧
    getDownloadUrlSlow (fun _ => true) [.countdown 9] 0 =
      (.cancelledWait, []) :=
  ⟨(c7_amended_thm 2 5 "u").1, (c7_amended_thm 2 5 "u").2.2 _ 9 0 [] rfl⟩

/-- C8 fails as stated: a progress callback that raises does abort the
transfer — its exception is not a `requests.exceptions.RequestException`,
matches none of `download_url`'s handlers, and escapes the function
uncaught. -/
theorem c8_counterexample :
    download_url_exc true true true = .uncaught .callbackError := rfl

/-- C8 amended: every transport-level error (`RequestException`, including
HTTP, connection, chunked-encoding and timeout errors) raised inside
`download_url` is caught and surfaced as the typed `None` failure — those
never escape; and with a non-raising callback no exception escapes.  Only
a raising progress callback (not a `RequestException`) propagates
uncaught and aborts the transfer. -/
theorem c8_amended_thm :
    (∀ e : PyExc, isRequestException e = true →
      download_url_except (some e) = .noneResult) ∧
    (∀ totalKnown hasChunks : Bool,
      download_url_exc false totalKnown hasChunks = .buffer) ∧
    (∀ e : PyExc, download_url_except (some e) = .uncaught e →
      isRequestException e = false) := by
  refine ⟨?_, ?_, ?_⟩
  · intro e he
    simp [download_url_except, he]
  · intro tk hc
    rfl
  · intro e h
    cases e <;> simp_all [download_url_except, isRequestException]

/-- Witness for C8's amended statement. -/
theorem c8_witness :
    download_url_except (some .connectionError) = .noneResult ∧
    download_url_exc false true true = .buffer ∧
    isRequestException .callbackError = false :=
  ⟨c8_amended_thm.1 .connectionError rfl, c8_amended_thm.2.1 true true,
   c8_amended_thm.2.2 .callbackError rfl⟩

/-- C6 fails as stated: with `USE_BOOK_TITLE` enabled the temporary output
path is built from book metadata only (the `book_id` argument of
`_generate_comprehensive_filename` is never used in the name), so two
distinct concurrent jobs with identical metadata get the *same* output
path — the paths are not job-unique and collide.  Also shown: the delivery
sequence puts a staging file `{book_id}.crdownload` into the shared ingest
directory *before* the final rename, so the artifact does not enter the
shared directory only through the single final rename. -/
theorem c6_counterexample :
    book_path true "1111aaaa" exBook "" = book_path true "2222bbbb" exBook "" ∧
    ("1111aaaa" : String) ≠ "2222bbbb" ∧
    book_path true "1111aaaa" exBook "" =
      ⟨TMP_DIR, "Plain Example Book Title -- Doe, Jane.epub"⟩ ∧
    (deliverySteps "1111aaaa" "n.epub").map FileOp.target =
      [⟨TMP_DIR, "n.epub"⟩, ⟨INGEST_DIR, "1111aaaa.crdownload"⟩,
       ⟨INGEST_DIR, "n.epub"⟩] :=
  ⟨rfl, by decide, by decide, by decide⟩

lemma str_data_append (a b : String) : (a ++ b).data = a.data ++ b.data := by
  cases a
  cases b
  rfl

/-- C6 amended: the temporary path depends only on the book metadata when
`USE_BOOK_TITLE` is enabled (hence identical-metadata jobs collide), and is
injective in the job id when it is disabled (`{book_id}.{format}`); the
artifact is staged into the shared ingest directory as
`{book_id}.crdownload` and the final delivery name appears there only
through the last operation, a single `os.rename` within the ingest
directory. -/
theorem c6_amended_thm :
    (∀ (id1 id2 : String) (b : BookInfoM) (snm : String),
      book_path true id1 b snm = book_path true id2 b snm) ∧
    (∀ (id1 id2 : String) (b : BookInfoM),
      book_path false id1 b "" = book_path false id2 b "" → id1 = id2) ∧
    (∀ (bookId bookName : String), bookName ≠ bookId ++ ".crdownload" →
      (deliverySteps bookId bookName).filter
          (fun op => op.target == FPath.mk INGEST_DIR bookName) =
        [.rename ⟨INGEST_DIR, bookId ++ ".crdownload"⟩
          ⟨INGEST_DIR, bookName⟩] ∧
      (deliverySteps bookId bookName).getLast? =
        some (.rename ⟨INGEST_DIR, bookId ++ ".crdownload"⟩
          ⟨INGEST_DIR, bookName⟩)) := by
  refine ⟨fun id1 id2 b snm => rfl, ?_, ?_⟩
  · intro id1 id2 b h
    have hn : book_filename false id1 b "" = book_filename false id2 b "" :=
      congrArg FPath.name h
    simp only [book_filename, Bool.false_eq_true, if_false] at hn
    have hd := congrArg String.data hn
    rw [str_data_append, str_data_append, str_data_append,
      str_data_append] at hd
    have h1 := List.append_left_injective b.format.data hd
    have h2 := List.append_left_injective ".".data h1
    cases id1
    cases id2
    exact congrArg String.mk h2
  · intro bookId bookName h
    constructor
    · simp [deliverySteps, FileOp.target, TMP_DIR, INGEST_DIR, Ne.symm h]
    · simp [deliverySteps]

/-- Witness for C6's amended statement. -/
theorem c6_witness :
    book_path true "x1" exBook "" = book_path true "x2" exBook "" ∧
    ("x1" : String) = "x1" ∧
    (deliverySteps "j1" "n.epub").getLast? =
      some (.rename ⟨INGEST_DIR, "j1" ++ ".crdownload"⟩
        ⟨INGEST_DIR, "n.epub"⟩) :=
  ⟨c6_amended_thm.1 "x1" "x2" exBook "",
   c6_amended_thm.2.1 "x1" "x1" exBook rfl,
   (c6_amended_thm.2.2 "j1" "n.epub" (by decide)).2⟩

end CWABD
